import Mathlib

/-!
Verification of the einops packaging script `scripts/setup.py`.

The script reads `README.md` (a relative path, resolved against the current
working directory of the invocation) and hands a fixed metadata record to
`setuptools.setup`.  We embed the record as an ordered association list of
keyword arguments whose values are Python values (strings or lists), and the
script itself as a state-passing function over a small filesystem model that
logs every read and write, so that effect claims (exactly one read, no
writes, no mutation of the file store) are provable rather than vacuous.
-/

/-- Python values occurring in the setup call: strings and lists. -/
inductive PyVal where
  | str : String → PyVal
  | list : List PyVal → PyVal

/-- Tests whether a Python value is a list (as opposed to a string). -/
def PyVal.isList : PyVal → Bool
  | .str _ => false
  | .list _ => true

/-- The exact keyword string passed as `keywords=` in `setup.py`. -/
def keywordsString : String :=
  "deep learning, neural networks, tensor manipulation, machine learning, scientific computations, einops"

/-- The exact classifier strings passed as `classifiers=` in `setup.py`,
in source order; note the trailing space in the second entry. -/
def classifierStrings : List String :=
  ["Intended Audience :: Science/Research",
   "Programming Language :: Python :: 3 ",
   "License :: OSI Approved :: MIT License"]

/-- The keyword arguments handed to `setuptools.setup`, in source order,
as a function of the text read from `README.md`.  This is a direct
transcription of the `setup(...)` call in `scripts/setup.py`. -/
def setupKwargs (readme : String) : List (String × PyVal) :=
  [("name", .str "einops"),
   ("version", .str "0.7.0"),
   ("description", .str "A new flavour of deep learning operations"),
   ("long_description", .str readme),
   ("long_description_content_type", .str "text/markdown"),
   ("url", .str "https://github.com/arogozhnikov/einops"),
   ("author", .str "Alex Rogozhnikov"),
   ("classifiers", .list (classifierStrings.map .str)),
   ("keywords", .str keywordsString),
   ("install_requires", .list [])]

/-- Filesystem state of an invocation: the current working directory, the
directory holding the script itself (never consulted by the code, since the
script uses the relative path `Path("README.md")`), the file store mapping
absolute paths to contents (`none` means absent or unreadable), and logs of
the read and write operations performed so far. -/
structure FSState where
  cwd : String
  scriptDir : String
  files : String → Option String
  reads : List String
  writes : List (String × String)

/-- Resolution of a path against the current working directory, as the
operating system does for the relative path opened by `Path.read_text`. -/
def resolve (cwd path : String) : String :=
  if path.data.headD ' ' = '/' then path else cwd ++ "/" ++ path

/-- The error message raised by Python when the file is absent or
unreadable. -/
def fileNotFoundMsg (path : String) : String :=
  "FileNotFoundError: [Errno 2] No such file or directory: " ++ path

/-- Model of `Path(path).read_text()`: resolves the path against the current
working directory, logs the read attempt, and returns the contents or a
file-not-found error. -/
def readText (path : String) (s : FSState) : Except String String × FSState :=
  let p := resolve s.cwd path
  let s1 := { s with reads := s.reads ++ [p] }
  match s.files p with
  | some c => (.ok c, s1)
  | none => (.error (fileNotFoundMsg path), s1)

/-- Model of one invocation of `scripts/setup.py`: read `README.md`, then
construct the metadata record and hand it to the external tool; on a read
error the error propagates and no record is produced. -/
def runSetupScript (s : FSState) : Except String (List (String × PyVal)) × FSState :=
  match readText "README.md" s with
  | (.ok readme, s1) => (.ok (setupKwargs readme), s1)
  | (.error e, s1) => (.error e, s1)

/-- Example file store for concrete witnesses: one readable README under
`/repo`, nothing else. -/
def exFiles : String → Option String :=
  fun p => if p = "/repo/README.md" then some "Einops readme." else none

/-- Example invocation state: working directory `/repo`, script located in
`/repo/scripts`, empty effect logs. -/
def exState : FSState :=
  { cwd := "/repo", scriptDir := "/repo/scripts", files := exFiles,
    reads := [], writes := [] }

/-- Example invocation state differing from `exState` only in the working
directory, under which the README is not found. -/
def exStateOther : FSState :=
  { cwd := "/other", scriptDir := "/repo/scripts", files := exFiles,
    reads := [], writes := [] }

/-- C1: whenever the README file is readable, the `long_description` field of
the constructed metadata record equals, byte for byte, the contents of that
file at invocation time. -/
theorem long_description_roundtrip (s : FSState) (txt : String)
    (h : s.files (resolve s.cwd "README.md") = some txt) :
    (runSetupScript s).1 = Except.ok (setupKwargs txt) ∧
      (setupKwargs txt).lookup "long_description" = some (PyVal.str txt) := by
  refine ⟨?_, rfl⟩
  simp [runSetupScript, readText, h]

/-- Witness for C1 at the concrete invocation state `exState`. -/
theorem long_description_roundtrip_witness :
    (runSetupScript exState).1 = Except.ok (setupKwargs "Einops readme.") ∧
      (setupKwargs "Einops readme.").lookup "long_description" =
        some (PyVal.str "Einops readme.") :=
  long_description_roundtrip exState "Einops readme." (by decide)

/-- C2: for every invocation, the `install_requires` field of the constructed
metadata record is the empty list of dependency specifiers. -/
theorem install_requires_empty (readme : String) :
    (setupKwargs readme).lookup "install_requires" = some (PyVal.list []) :=
  rfl

/-- C3: two invocations that observe identical README contents (including
both observing it missing) produce identical outcomes, hence byte-identical
metadata records in every field when they succeed. -/
theorem rerun_deterministic (s1 s2 : FSState)
    (h : s1.files (resolve s1.cwd "README.md") =
         s2.files (resolve s2.cwd "README.md")) :
    (runSetupScript s1).1 = (runSetupScript s2).1 := by
  cases h2 : s2.files (resolve s2.cwd "README.md") with
  | none => simp [runSetupScript, readText, h2, h.trans h2]
  | some c => simp [runSetupScript, readText, h2, h.trans h2]

/-- Witness for C3: rerunning at the same concrete state is deterministic. -/
theorem rerun_deterministic_witness :
    (runSetupScript exState).1 = (runSetupScript exState).1 :=
  rerun_deterministic exState exState rfl

/-- C4: the script fails if and only if the README is absent or unreadable,
the failure is the file-not-found error, it is the only failure mode, and on
failure no metadata record is produced (the outcome is the error alone). -/
theorem failure_iff_readme_missing (s : FSState) :
    ((runSetupScript s).1 = Except.error (fileNotFoundMsg "README.md") ↔
        s.files (resolve s.cwd "README.md") = none) ∧
      ((runSetupScript s).1.isOk = false ↔
        s.files (resolve s.cwd "README.md") = none) := by
  cases h : s.files (resolve s.cwd "README.md") with
  | none => simp [runSetupScript, readText, h, Except.isOk, Except.toBool]
  | some c => simp [runSetupScript, readText, h, Except.isOk, Except.toBool]

/-- C5: the constructed metadata record sets exactly the ten fields `name`,
`version`, `description`, `long_description`, `long_description_content_type`,
`url`, `author`, `classifiers`, `keywords`, `install_requires`, in this
order, and no other field. -/
theorem metadata_field_names (readme : String) :
    (setupKwargs readme).map Prod.fst =
      ["name", "version", "description", "long_description",
       "long_description_content_type", "url", "author", "classifiers",
       "keywords", "install_requires"] :=
  rfl

/-- C6 counterexample: at a concrete invocation the `keywords` field of the
record is a string, not a list, so the claim that it is a list of keyword
strings is false. -/
theorem keywords_not_a_list :
    ((setupKwargs "Einops readme.").lookup "keywords").map PyVal.isList =
      some false :=
  rfl

/-- C6 amended: for every invocation, the `keywords` field of the
constructed metadata record is a single free-text string containing the
comma-separated keywords. -/
theorem keywords_single_string (readme : String) :
    (setupKwargs readme).lookup "keywords" = some (PyVal.str keywordsString) ∧
      keywordsString = String.intercalate ", "
        ["deep learning", "neural networks", "tensor manipulation",
         "machine learning", "scientific computations", "einops"] :=
  ⟨rfl, rfl⟩

/-- C7: on every successful invocation the record handed to the external tool
is exactly the record constructed from the README contents (constructed once,
never mutated), and the script leaves the file store untouched and performs
no write to any cache or persistent store. -/
theorem record_constructed_once_not_persisted (s : FSState)
    (md : List (String × PyVal))
    (h : (runSetupScript s).1 = Except.ok md) :
    (∃ txt, s.files (resolve s.cwd "README.md") = some txt ∧
        md = setupKwargs txt) ∧
      (runSetupScript s).2.files = s.files ∧
      (runSetupScript s).2.writes = s.writes := by
  cases h2 : s.files (resolve s.cwd "README.md") with
  | none => simp [runSetupScript, readText, h2] at h
  | some c =>
    simp [runSetupScript, readText, h2] at h ⊢
    exact h.symm

/-- Witness for C7 at the concrete invocation state `exState`. -/
theorem record_constructed_once_not_persisted_witness :
    (∃ txt, exState.files (resolve exState.cwd "README.md") = some txt ∧
        setupKwargs "Einops readme." = setupKwargs txt) ∧
      (runSetupScript exState).2.files = exState.files ∧
      (runSetupScript exState).2.writes = exState.writes :=
  record_constructed_once_not_persisted exState
    (setupKwargs "Einops readme.") rfl

/-- C8: every invocation performs exactly one file read, of the README path
resolved against the working directory, and changes nothing else: no write
is logged, the file store is unchanged, and the working directory is
unchanged. -/
theorem single_read_no_other_effects (s : FSState) :
    (runSetupScript s).2.reads = s.reads ++ [resolve s.cwd "README.md"] ∧
      (runSetupScript s).2.writes = s.writes ∧
      (runSetupScript s).2.files = s.files ∧
      (runSetupScript s).2.cwd = s.cwd := by
  cases h : s.files (resolve s.cwd "README.md") with
  | none => simp [runSetupScript, readText, h]
  | some c => simp [runSetupScript, readText, h]

/-- C9: the README is addressed by the relative path `README.md`: the outcome
is invariant under the script's own location, while changing only the
working directory can change which file is read and whether the script
succeeds at all. -/
theorem readme_path_relative_to_cwd :
    (∀ (cwd d1 d2 : String) (files : String → Option String)
        (rs : List String) (ws : List (String × String)),
        (runSetupScript ⟨cwd, d1, files, rs, ws⟩).1 =
          (runSetupScript ⟨cwd, d2, files, rs, ws⟩).1) ∧
      (runSetupScript exState).1.isOk = true ∧
      (runSetupScript exStateOther).1.isOk = false := by
  refine ⟨?_, by decide, by decide⟩
  intro cwd d1 d2 files rs ws
  cases h : files (resolve cwd "README.md") with
  | none => simp [runSetupScript, readText, h]
  | some c => simp [runSetupScript, readText, h]

/-- C10: for every invocation, the `classifiers` field is exactly the
three-element ordered list from the source, whose second element carries a
verbatim trailing space. -/
theorem classifiers_exact (readme : String) :
    (setupKwargs readme).lookup "classifiers" =
      some (PyVal.list
        [PyVal.str "Intended Audience :: Science/Research",
         PyVal.str "Programming Language :: Python :: 3 ",
         PyVal.str "License :: OSI Approved :: MIT License"]) :=
  rfl
